import Mathlib

/-!
Verification of the YTubeSaver repository: URL classification
(`isValidUrl` / `extractVideoId` in `backend/server.js`,
`DownloadService` in the two frontend services, `YouTubeUtils`),
the yt-dlp format-selection policy, the `/api/cleanup` sweep, the
`/api/video-info` field mapping, and the download orchestrator's
error boundary.

The JavaScript regular expressions used by the repository are embedded
as terms of a small regex AST (`RExp`) together with a backtracking
matcher (`mAux` / `searchAll`) that mirrors the semantics of unanchored
JavaScript `RegExp.test` / `String.match`: the match position is the
leftmost one, alternatives and optional pieces are tried greedily in
source order, and capture groups are collected in group order.
-/

/-- Character class `[a-zA-Z0-9_-]` used by every YouTube id pattern and
the Instagram post-token patterns. -/
def idChar (c : Char) : Bool := c.isAlphanum || c == '_' || c == '-'

/-- Character class `[a-zA-Z0-9_.]` used by the Instagram stories
username group. -/
def igUserChar (c : Char) : Bool := c.isAlphanum || c == '_' || c == '.'

/-- Character class `[0-9]`. -/
def digitChar (c : Char) : Bool := c.isDigit

/-- JavaScript `.` matches every character except the four line
terminators. -/
def jsDot (c : Char) : Bool :=
  !(c == '\n' || c == '\r' || c.toNat == 0x2028 || c.toNat == 0x2029)

/-- Character class `[?&]` from the watch-with-parameters pattern. -/
def qAmp (c : Char) : Bool := c == '?' || c == '&'

/-- Regex AST covering exactly the constructs appearing in the
repository's patterns: literals, single-character classes, greedy `?`,
alternation, concatenation, greedy `.*`-style stars over a class, and
the three capture-group shapes `([..]{n})`, `([..]+)` and
`(w1|w2|...)`. -/
inductive RExp where
  | lit : List Char → RExp
  | cls : (Char → Bool) → RExp
  | opt : RExp → RExp
  | alt : RExp → RExp → RExp
  | seq : RExp → RExp → RExp
  | star : (Char → Bool) → RExp
  | grpRep : (Char → Bool) → Nat → RExp
  | grpPlus : (Char → Bool) → RExp
  | grpAlt : List (List Char) → RExp

/-- Captured groups, in group order, as raw character lists. -/
abbrev Caps := List (List Char)

/-- First-success choice on `Option`, the backtracking combinator. -/
def oor (a b : Option Caps) : Option Caps :=
  match a with
  | some v => some v
  | none => b

/-- Greedy Kleene star over a character class, in continuation style:
consume as many class characters as possible, giving characters back
one at a time when the continuation fails. -/
def starK (p : Char → Bool) (k : List Char → Option Caps) :
    List Char → Option Caps
  | [] => k []
  | c :: cs =>
    if p c then oor (starK p k cs) (k (c :: cs)) else k (c :: cs)

/-- Greedy star over a class that also records the consumed characters
(used for `([..]+)` capture groups); `acc` holds the consumed prefix
reversed. -/
def starCapK (p : Char → Bool) (k : List Char → List Char → Option Caps) :
    List Char → List Char → Option Caps
  | acc, [] => k acc.reverse []
  | acc, c :: cs =>
    if p c then oor (starCapK p k (c :: acc) cs) (k acc.reverse (c :: cs))
    else k acc.reverse (c :: cs)

/-- Try the words of a capturing alternation in source order, with
backtracking into the continuation. -/
def tryWords (ws : List (List Char)) (s : List Char) (caps : Caps)
    (k : List Char → Caps → Option Caps) : Option Caps :=
  match ws with
  | [] => none
  | w :: rest =>
    oor (if w.isPrefixOf s then k (s.drop w.length) (w :: caps) else none)
      (tryWords rest s caps k)

/-- The backtracking matcher. `mAux r s caps k` tries to match `r`
against a prefix of `s`; on success it calls `k` with the remaining
input and the captures pushed (most recent first) onto `caps`. -/
def mAux : RExp → List Char → Caps → (List Char → Caps → Option Caps) →
    Option Caps
  | .lit l, s, caps, k =>
    if l.isPrefixOf s then k (s.drop l.length) caps else none
  | .cls p, s, caps, k =>
    match s with
    | [] => none
    | c :: cs => if p c then k cs caps else none
  | .opt r, s, caps, k => oor (mAux r s caps k) (k s caps)
  | .alt a b, s, caps, k => oor (mAux a s caps k) (mAux b s caps k)
  | .seq a b, s, caps, k => mAux a s caps (fun s2 c2 => mAux b s2 c2 k)
  | .star p, s, caps, k => starK p (fun s2 => k s2 caps) s
  | .grpRep p n, s, caps, k =>
    if (s.take n).length == n && (s.take n).all p then
      k (s.drop n) (s.take n :: caps)
    else none
  | .grpPlus p, s, caps, k =>
    match s with
    | [] => none
    | c :: cs =>
      if p c then starCapK p (fun cap rest => k rest (cap :: caps)) [c] cs
      else none
  | .grpAlt ws, s, caps, k => tryWords ws s caps k

/-- Unanchored search, like JavaScript `String.match` on a regex
without flags: try each start position from the left; at the first
position where the pattern matches, return the captures in group
order. -/
def searchAll (r : RExp) : List Char → Option Caps
  | [] => mAux r [] [] (fun _ caps => some caps.reverse)
  | c :: cs =>
    oor (mAux r (c :: cs) [] (fun _ caps => some caps.reverse))
      (searchAll r cs)

/-- JavaScript `regex.test(s)`. -/
def regexTest (r : RExp) (s : String) : Bool := (searchAll r s.data).isSome

/-- JavaScript `s.match(regex)`, returning the capture list on a
match. -/
def regexMatch (r : RExp) (s : String) : Option Caps := searchAll r s.data

/-- `match[i+1]` of a JavaScript match object: the `i`-th capture, or
`none` standing for `undefined` when the group is out of range. -/
def capGet (caps : Caps) (i : Nat) : Option String :=
  (caps[i]?).map (fun l => String.mk l)

/-- Literal regex piece from a string. -/
def rlit (s : String) : RExp := .lit s.data

/-- Concatenation of a list of regex pieces. -/
def rseq (rs : List RExp) : RExp := rs.foldr RExp.seq (.lit [])

/-- `(?:https?:\/\/)?`. -/
def protoOpt : RExp := .opt (rseq [rlit "http", .opt (rlit "s"), rlit "://"])

/-- `(?:www\.)?`. -/
def wwwOpt : RExp := .opt (rlit "www.")

/-! ## The repository's URL patterns -/

/-- `/(?:https?:\/\/)?(?:www\.)?youtube\.com\/watch\?v=([a-zA-Z0-9_-]{11})/`. -/
def ytWatch : RExp :=
  rseq [protoOpt, wwwOpt, rlit "youtube.com/watch?v=", .grpRep idChar 11]

/-- `/(?:https?:\/\/)?(?:www\.)?youtube\.com\/shorts\/([a-zA-Z0-9_-]{11})/`. -/
def ytShorts : RExp :=
  rseq [protoOpt, wwwOpt, rlit "youtube.com/shorts/", .grpRep idChar 11]

/-- `/(?:https?:\/\/)?youtu\.be\/([a-zA-Z0-9_-]{11})/`. -/
def ytShortLink : RExp :=
  rseq [protoOpt, rlit "youtu.be/", .grpRep idChar 11]

/-- `/(?:https?:\/\/)?(?:m\.)?youtube\.com\/watch\?v=([a-zA-Z0-9_-]{11})/`
(mobile pattern, only in `src/src/services/downloadService.ts`). -/
def ytWatchMobile : RExp :=
  rseq [protoOpt, .opt (rlit "m."), rlit "youtube.com/watch?v=",
    .grpRep idChar 11]

/-- `/(?:https?:\/\/)?(?:www\.)?youtube\.com\/embed\/([a-zA-Z0-9_-]{11})/`. -/
def ytEmbed : RExp :=
  rseq [protoOpt, wwwOpt, rlit "youtube.com/embed/", .grpRep idChar 11]

/-- `/(?:https?:\/\/)?(?:www\.)?youtube\.com\/v\/([a-zA-Z0-9_-]{11})/`. -/
def ytV : RExp :=
  rseq [protoOpt, wwwOpt, rlit "youtube.com/v/", .grpRep idChar 11]

/-- `/(?:https?:\/\/)?(?:www\.)?youtube\.com\/watch\?.*[?&]v=([a-zA-Z0-9_-]{11})/`. -/
def ytWatchParams : RExp :=
  rseq [protoOpt, wwwOpt, rlit "youtube.com/watch?", .star jsDot, .cls qAmp,
    rlit "v=", .grpRep idChar 11]

/-- `/(?:https?:\/\/)?(?:www\.)?youtube\.com\/shorts\/([a-zA-Z0-9_-]{11})\??.*/`. -/
def ytShortsParams : RExp :=
  rseq [protoOpt, wwwOpt, rlit "youtube.com/shorts/", .grpRep idChar 11,
    .opt (rlit "?"), .star jsDot]

/-- `/(?:https?:\/\/)?(?:www\.)?instagram\.com\/(p|reel|tv)\/([a-zA-Z0-9_-]+)/`
(the backend's single Instagram pattern, two capture groups). -/
def igCombined : RExp :=
  rseq [protoOpt, wwwOpt, rlit "instagram.com/",
    .grpAlt ["p".data, "reel".data, "tv".data], rlit "/", .grpPlus idChar]

/-- `/(?:https?:\/\/)?(?:www\.)?instagram\.com\/p\/([a-zA-Z0-9_-]+)/`. -/
def igP : RExp :=
  rseq [protoOpt, wwwOpt, rlit "instagram.com/p/", .grpPlus idChar]

/-- `/(?:https?:\/\/)?(?:www\.)?instagram\.com\/reel\/([a-zA-Z0-9_-]+)/`. -/
def igReel : RExp :=
  rseq [protoOpt, wwwOpt, rlit "instagram.com/reel/", .grpPlus idChar]

/-- `/(?:https?:\/\/)?(?:www\.)?instagram\.com\/tv\/([a-zA-Z0-9_-]+)/`. -/
def igTv : RExp :=
  rseq [protoOpt, wwwOpt, rlit "instagram.com/tv/", .grpPlus idChar]

/-- `/(?:https?:\/\/)?(?:www\.)?instagram\.com\/stories\/([a-zA-Z0-9_.]+)\/([0-9]+)/`. -/
def igStories : RExp :=
  rseq [protoOpt, wwwOpt, rlit "instagram.com/stories/", .grpPlus igUserChar,
    rlit "/", .grpPlus digitChar]

/-- `/(?:https?:\/\/)?(?:www\.)?instagram\.com\/p\/([a-zA-Z0-9_-]+)\??.*/`. -/
def igPParams : RExp :=
  rseq [protoOpt, wwwOpt, rlit "instagram.com/p/", .grpPlus idChar,
    .opt (rlit "?"), .star jsDot]

/-- `/(?:https?:\/\/)?(?:www\.)?instagram\.com\/reel\/([a-zA-Z0-9_-]+)\??.*/`. -/
def igReelParams : RExp :=
  rseq [protoOpt, wwwOpt, rlit "instagram.com/reel/", .grpPlus idChar,
    .opt (rlit "?"), .star jsDot]

/-- The seven YouTube patterns of `YouTubeUtils.extractVideoId`
(`src/unnamed/part_003`) and of the app service's `extractYouTubeId`
and `isYouTubeUrl`, in source order. -/
def ytUtilsPatterns : List RExp :=
  [ytWatch, ytShorts, ytShortLink, ytEmbed, ytV, ytWatchParams,
    ytShortsParams]

/-- The JavaScript loop
`for (pattern of ps) { const m = url.match(pattern); if (m) return m[idx+1]; }`:
on the first pattern that matches, the chosen capture is returned as the
loop's result (so a match whose requested group is absent still ends the
loop, yielding `undefined`, i.e. `some none`). -/
def firstMatchCap (ps : List RExp) (idx : Nat) (url : String) :
    Option (Option String) :=
  match ps with
  | [] => none
  | p :: rest =>
    match regexMatch p url with
    | some caps => some (capGet caps idx)
    | none => firstMatchCap rest idx url

/-- The JavaScript loop
`for (pattern of ps) { const m = url.match(pattern); if (m && m[1]) return m[1]; }`:
keep trying patterns until one matches with a truthy first capture. -/
def firstTruthyCap (ps : List RExp) (url : String) : Option String :=
  match ps with
  | [] => none
  | p :: rest =>
    match regexMatch p url with
    | some caps =>
      match capGet caps 0 with
      | some s => if s = "" then firstTruthyCap rest url else some s
      | none => firstTruthyCap rest url
    | none => firstTruthyCap rest url

/-- JavaScript `a || b` on a string-or-undefined value: the default is
used when the value is absent or the empty string (both falsy). -/
def jsOrStr (a : Option String) (d : String) : String :=
  match a with
  | none => d
  | some s => if s = "" then d else s

/-- JavaScript `a || b` where `b` is itself a nullable string
(`videoData.id || extractVideoId(url)`). -/
def jsOrOpt (a : Option String) (b : Option String) : Option String :=
  match a with
  | none => b
  | some s => if s = "" then b else some s

/-- JavaScript `s.includes(sub)`. -/
def jsIncludes (s sub : String) : Bool := decide (sub.data <:+: s.data)
/-! ## `backend/server.js` -/

namespace Backend

/-- The pattern set of `isValidUrl` in `backend/server.js` (three
YouTube patterns plus the combined Instagram pattern), in source
order. -/
def patterns : List RExp := [ytWatch, ytShorts, ytShortLink, igCombined]

/-- `isValidUrl` from `backend/server.js`: true when any pattern in the
set matches. -/
def isValidUrl (url : String) : Bool :=
  patterns.any (fun p => regexTest p url)

/-- The YouTube pattern list of `extractVideoId` in
`backend/server.js`, in source order. -/
def ytPatterns : List RExp := [ytWatch, ytShorts, ytShortLink]

/-- `extractVideoId` from `backend/server.js`: try the YouTube patterns
in order returning `match[1]`, then the Instagram pattern returning
`match[2]`, else `null`. -/
def extractVideoId (url : String) : Option String :=
  match firstMatchCap ytPatterns 0 url with
  | some v => v
  | none =>
    match regexMatch igCombined url with
    | some caps => capGet caps 1
    | none => none

/-- The yt-dlp format selector chosen by `POST /api/download`
(`backend/server.js` lines 180-192). -/
def formatSelector (format quality : String) : String :=
  if format = "audio" then
    "bestaudio[ext=m4a]/bestaudio/best"
  else
    if quality = "2160p (4K)" then "best[height<=2160]"
    else if quality = "1440p" then "best[height<=1440]"
    else if quality = "1080p" then "best[height<=1080]"
    else if quality = "720p" then "best[height<=720]"
    else if quality = "480p" then "best[height<=480]"
    else if quality = "360p" then "best[height<=360]"
    else "best"

/-- The audio download command line built by `POST /api/download`
(`backend/server.js` line 203), as its character sequence; the three
holes are the format selector, the output path template and the URL. -/
def audioCmdData (selector outPath url : String) : List Char :=
  "C:/Users/sudip/AppData/Local/Microsoft/WindowsApps/python3.12.exe -m yt_dlp -f \"".data
    ++ selector.data
    ++ "\" --extract-audio --audio-format mp3 --audio-quality 0 -o \"".data
    ++ outPath.data
    ++ "\" \"".data ++ url.data ++ "\"".data

/-- A directory entry as seen by the cleanup sweep: a name and a
last-modified time in milliseconds since the epoch. -/
structure DirEntry where
  name : String
  mtime : Int
deriving DecidableEq, Repr

/-- The `files.forEach` loop of `POST /api/cleanup`
(`backend/server.js` lines 270-280): delete every file whose age
`now - mtime` exceeds 3600000 ms, count the deletions, keep the rest.
Returns the surviving directory listing and the deletion count. -/
def cleanupRun (now : Int) : List DirEntry → List DirEntry × Nat
  | [] => ([], 0)
  | f :: fs =>
    let r := cleanupRun now fs
    if now - f.mtime > 3600000 then (r.1, r.2 + 1) else (f :: r.1, r.2)

/-- The response message of `POST /api/cleanup`. -/
def cleanupMessage (deleted : Nat) : String :=
  "Cleaned up " ++ toString deleted ++ " old files"

/-- The `platform` field computed by `POST /api/video-info`
(`backend/server.js` line 124): `url.includes('youtube')`. -/
def platformOf (url : String) : String :=
  if jsIncludes url "youtube" then "youtube" else "instagram"

/-- One entry of the yt-dlp `formats` array, with the fields the
mapping reads; absent JSON fields are `none`. -/
structure RawFormat where
  format_id : String
  ext : String
  height : Option Nat
  format_note : Option String
  filesize : Option Nat
  url : String
deriving DecidableEq, Repr

/-- One mapped entry of `videoInfo.formats`. -/
structure MappedFormat where
  format_id : String
  ext : String
  quality : String
  filesize : Option Nat
  url : String
  format_note : Option String
deriving DecidableEq, Repr

/-- The per-format mapping of `POST /api/video-info` (lines 125-132):
`quality` is `` `${f.height}p` `` when `f.height` is truthy (present and
nonzero), else `f.format_note || 'unknown'`. -/
def mapFormat (f : RawFormat) : MappedFormat :=
  { format_id := f.format_id
    ext := f.ext
    quality :=
      match f.height with
      | some h => if h = 0 then jsOrStr f.format_note "unknown"
                  else toString h ++ "p"
      | none => jsOrStr f.format_note "unknown"
    filesize := f.filesize
    url := f.url
    format_note := f.format_note }

/-- The JSON object parsed from yt-dlp's metadata output, restricted to
the fields the mapping reads; absent fields are `none`. -/
structure YtDlpData where
  id : Option String
  title : Option String
  thumbnail : Option String
  duration_string : Option String
  uploader : Option String
  channel : Option String
  formats : Option (List RawFormat)
deriving DecidableEq, Repr

/-- The `videoInfo` object built by `POST /api/video-info`. -/
structure VideoInfo where
  id : Option String
  title : String
  thumbnail : String
  duration : String
  uploader : String
  platform : String
  formats : List MappedFormat
deriving DecidableEq, Repr

/-- The `videoInfo` mapping of `POST /api/video-info`
(`backend/server.js` lines 118-133). -/
def mapVideoInfo (url : String) (d : YtDlpData) : VideoInfo :=
  { id := jsOrOpt d.id (extractVideoId url)
    title := jsOrStr d.title "Unknown Title"
    thumbnail := jsOrStr d.thumbnail ""
    duration := jsOrStr d.duration_string "00:00"
    uploader := jsOrStr d.uploader (jsOrStr d.channel "Unknown")
    platform := platformOf url
    formats :=
      match d.formats with
      | some fs => fs.map mapFormat
      | none => [] }

end Backend

/-! ## `src/src/services/downloadService.ts` -/

namespace FrontendService

/-- The pattern set of `DownloadService.isValidUrl` in
`src/src/services/downloadService.ts` (lines 183-196): the three
standard YouTube patterns, the mobile `m.` watch pattern, and the
combined Instagram pattern. -/
def patterns : List RExp :=
  [ytWatch, ytShorts, ytShortLink, ytWatchMobile, igCombined]

/-- `DownloadService.isValidUrl` from
`src/src/services/downloadService.ts`. -/
def isValidUrl (url : String) : Bool :=
  patterns.any (fun p => regexTest p url)

end FrontendService

/-! ## `ytube-saver-app/src/services/downloadService.ts` and
`src/unnamed/part_003` (`YouTubeUtils`) -/

namespace YouTubeUtils

/-- `YouTubeUtils.extractVideoId` from `src/unnamed/part_003`:
seven YouTube patterns tried in order, returning `match[1]` at the
first pattern whose match has a truthy first capture. -/
def extractVideoId (url : String) : Option String :=
  firstTruthyCap ytUtilsPatterns url

/-- `YouTubeUtils.isValidYouTubeUrl`. -/
def isValidYouTubeUrl (url : String) : Bool :=
  extractVideoId url ≠ none

end YouTubeUtils

namespace AppService

/-- `DownloadService.extractYouTubeId` from
`ytube-saver-app/src/services/downloadService.ts`: textually the same
seven patterns and loop as `YouTubeUtils.extractVideoId`. -/
def extractYouTubeId (url : String) : Option String :=
  firstTruthyCap ytUtilsPatterns url

/-- `DownloadService.isYouTubeUrl`: true when any of the seven YouTube
patterns matches. -/
def isYouTubeUrl (url : String) : Bool :=
  ytUtilsPatterns.any (fun p => regexTest p url)

/-- The pattern list of `DownloadService.isInstagramUrl` (lines
541-557): posts, reels, tv, stories, and the two with-parameter
variants. -/
def igValidPatterns : List RExp :=
  [igP, igReel, igTv, igStories, igPParams, igReelParams]

/-- `DownloadService.isInstagramUrl`. -/
def isInstagramUrl (url : String) : Bool :=
  igValidPatterns.any (fun p => regexTest p url)

/-- `DownloadService.extractInstagramId` (lines 498-513): only the
post, reel and tv patterns, returning `match[1]` at the first match
with a truthy capture. -/
def extractInstagramId (url : String) : Option String :=
  firstTruthyCap [igP, igReel, igTv] url

/-- The platform classification of `DownloadService.detectPlatform`. -/
inductive Platform where
  | youtube
  | instagram
  | unknown
deriving DecidableEq, Repr

/-- `DownloadService.detectPlatform`: YouTube first, then Instagram,
else unknown. -/
def detectPlatform (url : String) : Platform :=
  if isYouTubeUrl url then .youtube
  else if isInstagramUrl url then .instagram
  else .unknown

end AppService
/-! ## Capture-shape soundness of the matcher -/

/-- The shapes a successful match's capture list can take, by regex
structure: concatenation concatenates captures in group order, a
`([..]{n})` group captures exactly `n` class characters, a `([..]+)`
group captures a nonempty class word, and a `(w1|w2|..)` group captures
one of its words. -/
inductive CapsOK : RExp → Caps → Prop where
  | lit : ∀ {l}, CapsOK (.lit l) []
  | cls : ∀ {p}, CapsOK (.cls p) []
  | optNone : ∀ {r}, CapsOK (.opt r) []
  | optSome : ∀ {r cs}, CapsOK r cs → CapsOK (.opt r) cs
  | altL : ∀ {a b cs}, CapsOK a cs → CapsOK (.alt a b) cs
  | altR : ∀ {a b cs}, CapsOK b cs → CapsOK (.alt a b) cs
  | seq : ∀ {a b ca cb}, CapsOK a ca → CapsOK b cb →
      CapsOK (.seq a b) (ca ++ cb)
  | star : ∀ {p}, CapsOK (.star p) []
  | grpRep : ∀ {p n c}, c.length = n → c.all p = true →
      CapsOK (.grpRep p n) [c]
  | grpPlus : ∀ {p c}, c ≠ [] → c.all p = true → CapsOK (.grpPlus p) [c]
  | grpAlt : ∀ {ws w}, w ∈ ws → CapsOK (.grpAlt ws) [w]

theorem oor_eq_some {a b : Option Caps} {v : Caps} (h : oor a b = some v) :
    a = some v ∨ (a = none ∧ b = some v) := by
  cases a with
  | some w => left; simpa [oor] using h
  | none => right; exact ⟨rfl, by simpa [oor] using h⟩

theorem starK_sound {p : Char → Bool} {k : List Char → Option Caps} :
    ∀ {s v}, starK p k s = some v → ∃ s2, k s2 = some v := by
  intro s
  induction s with
  | nil => intro v h; exact ⟨[], by simpa [starK] using h⟩
  | cons c cs ih =>
    intro v h
    simp only [starK] at h
    by_cases hp : p c
    · rw [if_pos hp] at h
      rcases oor_eq_some h with h1 | ⟨_, h2⟩
      · exact ih h1
      · exact ⟨c :: cs, h2⟩
    · rw [if_neg hp] at h
      exact ⟨c :: cs, h⟩

theorem starCapK_sound {p : Char → Bool}
    {k : List Char → List Char → Option Caps} :
    ∀ {s acc v}, starCapK p k acc s = some v →
      ∃ ext s2, ext.all p = true ∧ k (acc.reverse ++ ext) s2 = some v := by
  intro s
  induction s with
  | nil =>
    intro acc v h
    exact ⟨[], [], rfl, by simpa [starCapK] using h⟩
  | cons c cs ih =>
    intro acc v h
    simp only [starCapK] at h
    by_cases hp : p c
    · rw [if_pos hp] at h
      rcases oor_eq_some h with h1 | ⟨_, h2⟩
      · rcases ih h1 with ⟨ext, s2, hall, hk⟩
        refine ⟨c :: ext, s2, ?_, ?_⟩
        · simp [List.all_cons, hp, hall]
        · simpa using hk
      · exact ⟨[], c :: cs, rfl, by simpa using h2⟩
    · rw [if_neg hp] at h
      exact ⟨[], c :: cs, rfl, by simpa using h⟩

theorem tryWords_sound {s : List Char} {caps : Caps}
    {k : List Char → Caps → Option Caps} :
    ∀ {ws v}, tryWords ws s caps k = some v →
      ∃ w, w ∈ ws ∧ k (s.drop w.length) (w :: caps) = some v := by
  intro ws
  induction ws with
  | nil => intro v h; simp [tryWords] at h
  | cons w rest ih =>
    intro v h
    simp only [tryWords] at h
    rcases oor_eq_some h with h1 | ⟨_, h2⟩
    · by_cases hw : w.isPrefixOf s
      · rw [if_pos hw] at h1
        exact ⟨w, List.mem_cons_self w rest, h1⟩
      · rw [if_neg hw] at h1
        exact absurd h1 (by simp)
    · rcases ih h2 with ⟨w2, hmem, hk⟩
      exact ⟨w2, List.mem_cons_of_mem w hmem, hk⟩

/-- Soundness of the matcher with respect to `CapsOK`: every successful
run of `mAux r` hands its continuation the original capture stack with
a `CapsOK`-shaped block (reversed, since the stack grows to the left)
pushed on top. -/
theorem mAux_sound :
    ∀ (r : RExp) {s : List Char} {caps : Caps}
      {k : List Char → Caps → Option Caps} {v : Caps},
      mAux r s caps k = some v →
      ∃ s2 cs, CapsOK r cs ∧ k s2 (cs.reverse ++ caps) = some v := by
  intro r
  induction r with
  | lit l =>
    intro s caps k v h
    simp only [mAux] at h
    by_cases hp : l.isPrefixOf s
    · rw [if_pos hp] at h
      exact ⟨s.drop l.length, [], .lit, by simpa using h⟩
    · rw [if_neg hp] at h; exact absurd h (by simp)
  | cls p =>
    intro s caps k v h
    match s with
    | [] => simp [mAux] at h
    | c :: cs =>
      simp only [mAux] at h
      by_cases hp : p c
      · rw [if_pos hp] at h
        exact ⟨cs, [], .cls, by simpa using h⟩
      · rw [if_neg hp] at h; exact absurd h (by simp)
  | opt r ih =>
    intro s caps k v h
    simp only [mAux] at h
    rcases oor_eq_some h with h1 | ⟨_, h2⟩
    · rcases ih h1 with ⟨s2, cs, hok, hk⟩
      exact ⟨s2, cs, .optSome hok, hk⟩
    · exact ⟨s, [], .optNone, by simpa using h2⟩
  | alt a b iha ihb =>
    intro s caps k v h
    simp only [mAux] at h
    rcases oor_eq_some h with h1 | ⟨_, h2⟩
    · rcases iha h1 with ⟨s2, cs, hok, hk⟩
      exact ⟨s2, cs, .altL hok, hk⟩
    · rcases ihb h2 with ⟨s2, cs, hok, hk⟩
      exact ⟨s2, cs, .altR hok, hk⟩
  | seq a b iha ihb =>
    intro s caps k v h
    simp only [mAux] at h
    rcases iha h with ⟨s2, csa, hoka, hk1⟩
    rcases ihb hk1 with ⟨s3, csb, hokb, hk2⟩
    refine ⟨s3, csa ++ csb, .seq hoka hokb, ?_⟩
    simpa [List.append_assoc] using hk2
  | star p =>
    intro s caps k v h
    simp only [mAux] at h
    rcases starK_sound h with ⟨s2, hk⟩
    exact ⟨s2, [], .star, by simpa using hk⟩
  | grpRep p n =>
    intro s caps k v h
    simp only [mAux] at h
    by_cases hc : ((s.take n).length == n && (s.take n).all p) = true
    · rw [if_pos hc] at h
      simp only [Bool.and_eq_true, beq_iff_eq] at hc
      exact ⟨s.drop n, [s.take n], .grpRep hc.1 hc.2, by simpa using h⟩
    · rw [if_neg hc] at h; exact absurd h (by simp)
  | grpPlus p =>
    intro s caps k v h
    match s with
    | [] => simp [mAux] at h
    | c :: cs =>
      simp only [mAux] at h
      by_cases hp : p c
      · rw [if_pos hp] at h
        rcases starCapK_sound h with ⟨ext, s2, hall, hk⟩
        refine ⟨s2, [c :: ext], .grpPlus (by simp) ?_, ?_⟩
        · simp [List.all_cons, hp, hall]
        · simpa using hk
      · rw [if_neg hp] at h; exact absurd h (by simp)
  | grpAlt ws =>
    intro s caps k v h
    simp only [mAux] at h
    rcases tryWords_sound h with ⟨w, hmem, hk⟩
    exact ⟨s.drop w.length, [w], .grpAlt hmem, by simpa using hk⟩

/-- Soundness of the unanchored search: whatever start position
succeeds, the returned capture list has the `CapsOK` shape of the
pattern. -/
theorem searchAll_sound {r : RExp} :
    ∀ {s caps}, searchAll r s = some caps → CapsOK r caps := by
  intro s
  induction s with
  | nil =>
    intro caps h
    simp only [searchAll] at h
    rcases mAux_sound r h with ⟨s2, cs, hok, hk⟩
    simp only [Option.some.injEq] at hk
    rw [← hk]
    simpa using hok
  | cons c cs ih =>
    intro caps h
    simp only [searchAll] at h
    rcases oor_eq_some h with h1 | ⟨_, h2⟩
    · rcases mAux_sound r h1 with ⟨s2, cs2, hok, hk⟩
      simp only [Option.some.injEq] at hk
      rw [← hk]
      simpa using hok
    · exact ih h2
/-- Regexes containing no capture group. -/
def noCaps : RExp → Bool
  | .lit _ => true
  | .cls _ => true
  | .opt r => noCaps r
  | .alt a b => noCaps a && noCaps b
  | .seq a b => noCaps a && noCaps b
  | .star _ => true
  | .grpRep _ _ => false
  | .grpPlus _ => false
  | .grpAlt _ => false

theorem capsOK_noCaps : ∀ {r cs}, CapsOK r cs → noCaps r = true → cs = [] := by
  intro r cs h
  induction h with
  | lit => intro; rfl
  | cls => intro; rfl
  | optNone => intro; rfl
  | optSome _ ih => intro hn; exact ih (by simpa [noCaps] using hn)
  | altL _ ih =>
    intro hn
    exact ih (by simp [noCaps, Bool.and_eq_true] at hn; exact hn.1)
  | altR _ ih =>
    intro hn
    exact ih (by simp [noCaps, Bool.and_eq_true] at hn; exact hn.2)
  | seq _ _ iha ihb =>
    intro hn
    simp only [noCaps, Bool.and_eq_true] at hn
    simp [iha hn.1, ihb hn.2]
  | star => intro; rfl
  | grpRep _ _ => intro hn; simp [noCaps] at hn
  | grpPlus _ _ => intro hn; simp [noCaps] at hn
  | grpAlt _ => intro hn; simp [noCaps] at hn

theorem noCaps_rseq : ∀ {rs : List RExp},
    (∀ q ∈ rs, noCaps q = true) → noCaps (rseq rs) = true := by
  intro rs
  induction rs with
  | nil => intro; rfl
  | cons q qs ih =>
    intro h
    simp only [rseq, List.foldr_cons, noCaps, Bool.and_eq_true]
    exact ⟨h q (List.mem_cons_self q qs), ih fun r hr =>
      h r (List.mem_cons_of_mem q hr)⟩

/-- Peeling a capture-free prefix off a concatenation: the capture list
of the whole match is the capture list of the base. -/
theorem capsOK_foldr_pre (P : Caps → Prop) :
    ∀ (pre : List RExp), (∀ q ∈ pre, noCaps q = true) →
      ∀ {base : RExp}, (∀ {ds}, CapsOK base ds → P ds) →
        ∀ {cs}, CapsOK (List.foldr RExp.seq base pre) cs → P cs := by
  intro pre
  induction pre with
  | nil => intro _ base hbase cs h; exact hbase h
  | cons q qs ih =>
    intro hpre base hbase cs h
    simp only [List.foldr_cons] at h
    cases h with
    | seq h1 h2 =>
      have e1 := capsOK_noCaps h1 (hpre q (List.mem_cons_self q qs))
      subst e1
      simpa using ih (fun r hr => hpre r (List.mem_cons_of_mem q hr))
        hbase h2

/-- An id capture: exactly eleven `[a-zA-Z0-9_-]` characters. -/
def IsYtId (c : List Char) : Prop := c.length = 11 ∧ c.all idChar = true

/-- Every pattern in every YouTube pattern list of the repository
(the seven `YouTubeUtils` patterns and the mobile watch pattern)
captures exactly one group, an eleven-character id token. -/
theorem capsOK_ytPattern {p : RExp}
    (hp : p ∈ ytUtilsPatterns ∨ p = ytWatchMobile)
    {caps : Caps} (h : CapsOK p caps) : ∃ c, caps = [c] ∧ IsYtId c := by
  have hsimple : ∀ {ds}, CapsOK (RExp.seq (.grpRep idChar 11) (.lit [])) ds →
      ∃ c, ds = [c] ∧ IsYtId c := by
    intro ds hds
    cases hds with
    | seq hg ht =>
      cases hg with
      | grpRep hlen hall =>
        cases ht
        exact ⟨_, by simp, hlen, hall⟩
  have hparams : ∀ {ds}, CapsOK (RExp.seq (.grpRep idChar 11)
      (.seq (.opt (rlit "?")) (.seq (.star jsDot) (.lit [])))) ds →
      ∃ c, ds = [c] ∧ IsYtId c := by
    intro ds hds
    cases hds with
    | seq hg ht =>
      cases hg with
      | grpRep hlen hall =>
        have e := capsOK_noCaps ht (by decide)
        exact ⟨_, by simp [e], hlen, hall⟩
  rcases hp with hp | hp
  · simp only [ytUtilsPatterns, List.mem_cons, List.not_mem_nil,
      or_false] at hp
    rcases hp with hp | hp | hp | hp | hp | hp | hp
    all_goals subst hp
    · exact capsOK_foldr_pre _ [protoOpt, wwwOpt, rlit "youtube.com/watch?v="]
        (by decide) hsimple h
    · exact capsOK_foldr_pre _ [protoOpt, wwwOpt, rlit "youtube.com/shorts/"]
        (by decide) hsimple h
    · exact capsOK_foldr_pre _ [protoOpt, rlit "youtu.be/"]
        (by decide) hsimple h
    · exact capsOK_foldr_pre _ [protoOpt, wwwOpt, rlit "youtube.com/embed/"]
        (by decide) hsimple h
    · exact capsOK_foldr_pre _ [protoOpt, wwwOpt, rlit "youtube.com/v/"]
        (by decide) hsimple h
    · exact capsOK_foldr_pre _ [protoOpt, wwwOpt, rlit "youtube.com/watch?",
        .star jsDot, .cls qAmp, rlit "v="] (by decide) hsimple h
    · exact capsOK_foldr_pre _ [protoOpt, wwwOpt, rlit "youtube.com/shorts/"]
        (by decide) hparams h
  · subst hp
    exact capsOK_foldr_pre _ [protoOpt, .opt (rlit "m."),
      rlit "youtube.com/watch?v="] (by decide) hsimple h
/-- The single-group Instagram patterns (posts, reels, tv, and the two
with-parameter variants) capture exactly one nonempty
`[a-zA-Z0-9_-]+` token. -/
theorem capsOK_igSingle {p : RExp}
    (hp : p ∈ [igP, igReel, igTv, igPParams, igReelParams])
    {caps : Caps} (h : CapsOK p caps) :
    ∃ c, caps = [c] ∧ c ≠ [] ∧ c.all idChar = true := by
  have hsimple : ∀ {ds}, CapsOK (RExp.seq (.grpPlus idChar) (.lit [])) ds →
      ∃ c, ds = [c] ∧ c ≠ [] ∧ c.all idChar = true := by
    intro ds hds
    cases hds with
    | seq hg ht =>
      cases hg with
      | grpPlus hne hall =>
        cases ht
        exact ⟨_, by simp, hne, hall⟩
  have hparams : ∀ {ds}, CapsOK (RExp.seq (.grpPlus idChar)
      (.seq (.opt (rlit "?")) (.seq (.star jsDot) (.lit [])))) ds →
      ∃ c, ds = [c] ∧ c ≠ [] ∧ c.all idChar = true := by
    intro ds hds
    cases hds with
    | seq hg ht =>
      cases hg with
      | grpPlus hne hall =>
        have e := capsOK_noCaps ht (by decide)
        exact ⟨_, by simp [e], hne, hall⟩
  simp only [List.mem_cons, List.not_mem_nil, or_false] at hp
  rcases hp with hp | hp | hp | hp | hp
  all_goals subst hp
  · exact capsOK_foldr_pre _ [protoOpt, wwwOpt, rlit "instagram.com/p/"]
      (by decide) hsimple h
  · exact capsOK_foldr_pre _ [protoOpt, wwwOpt, rlit "instagram.com/reel/"]
      (by decide) hsimple h
  · exact capsOK_foldr_pre _ [protoOpt, wwwOpt, rlit "instagram.com/tv/"]
      (by decide) hsimple h
  · exact capsOK_foldr_pre _ [protoOpt, wwwOpt, rlit "instagram.com/p/"]
      (by decide) hparams h
  · exact capsOK_foldr_pre _ [protoOpt, wwwOpt, rlit "instagram.com/reel/"]
      (by decide) hparams h

/-- The backend's combined Instagram pattern captures exactly two
groups: the kind word (`p`, `reel` or `tv`) and a nonempty token. -/
theorem capsOK_igCombined {caps : Caps} (h : CapsOK igCombined caps) :
    ∃ w c, caps = [w, c] ∧ w ∈ ["p".data, "reel".data, "tv".data] ∧
      c ≠ [] ∧ c.all idChar = true := by
  have hbase : ∀ {ds}, CapsOK (RExp.seq (.grpAlt ["p".data, "reel".data, "tv".data])
      (.seq (rlit "/") (.seq (.grpPlus idChar) (.lit [])))) ds →
      ∃ w c, ds = [w, c] ∧ w ∈ ["p".data, "reel".data, "tv".data] ∧
        c ≠ [] ∧ c.all idChar = true := by
    intro ds hds
    cases hds with
    | seq hw ht =>
      cases hw with
      | grpAlt hmem =>
        cases ht with
        | seq hlit ht2 =>
          cases hlit
          cases ht2 with
          | seq hg ht3 =>
            cases hg with
            | grpPlus hne hall =>
              cases ht3
              exact ⟨_, _, by simp, hmem, hne, hall⟩
  exact capsOK_foldr_pre _ [protoOpt, wwwOpt, rlit "instagram.com/"]
    (by decide) hbase h
/-! ## Corollaries about the extraction loops -/

theorem firstMatchCap_eq_none_iff {ps : List RExp} {idx : Nat} {url : String} :
    firstMatchCap ps idx url = none ↔ ∀ p ∈ ps, regexMatch p url = none := by
  induction ps with
  | nil => simp [firstMatchCap]
  | cons p rest ih =>
    simp only [firstMatchCap]
    cases hm : regexMatch p url with
    | some caps =>
      simp only [List.mem_cons]
      constructor
      · intro h; exact absurd h (by simp)
      · intro h
        have := h p (Or.inl rfl)
        rw [hm] at this
        exact absurd this (by simp)
    | none =>
      rw [ih]
      constructor
      · intro h q hq
        rcases List.mem_cons.mp hq with hq | hq
        · rw [hq]; exact hm
        · exact h q hq
      · intro h q hq
        exact h q (List.mem_cons_of_mem p hq)

theorem firstMatchCap_some_sound {ps : List RExp} {idx : Nat} {url : String}
    {v : Option String} (h : firstMatchCap ps idx url = some v) :
    ∃ p ∈ ps, ∃ caps, regexMatch p url = some caps ∧ v = capGet caps idx := by
  induction ps with
  | nil => simp [firstMatchCap] at h
  | cons p rest ih =>
    simp only [firstMatchCap] at h
    cases hm : regexMatch p url with
    | some caps =>
      simp only [hm, Option.some.injEq] at h
      exact ⟨p, List.mem_cons_self p rest, caps, hm, h.symm⟩
    | none =>
      simp only [hm] at h
      rcases ih h with ⟨q, hq, caps, hmq, hv⟩
      exact ⟨q, List.mem_cons_of_mem p hq, caps, hmq, hv⟩

theorem firstTruthyCap_eq_none_iff_aux {ps : List RExp} {url : String}
    (hne : ∀ p ∈ ps, ∀ caps, CapsOK p caps →
      ∃ c cs, caps = c :: cs ∧ c ≠ []) :
    firstTruthyCap ps url = none ↔ ∀ p ∈ ps, regexMatch p url = none := by
  induction ps with
  | nil => simp [firstTruthyCap]
  | cons p rest ih =>
    simp only [firstTruthyCap]
    cases hm : regexMatch p url with
    | some caps =>
      rcases hne p (List.mem_cons_self p rest) caps (searchAll_sound hm)
          with ⟨c, cs, hcaps, hc⟩
      subst hcaps
      have hgc : capGet (c :: cs) 0 = some (String.mk c) := by
        simp [capGet]
      have hse : ¬ (String.mk c = "") := by
        intro he
        exact hc (by simpa [String.ext_iff] using he)
      simp only [hm, hgc, if_neg hse]
      constructor
      · intro h; exact absurd h (by simp)
      · intro h
        have := h p (List.mem_cons_self p rest)
        rw [hm] at this
        exact absurd this (by simp)
    | none =>
      rw [ih fun q hq => hne q (List.mem_cons_of_mem p hq)]
      constructor
      · intro h q hq
        rcases List.mem_cons.mp hq with hq | hq
        · rw [hq]; exact hm
        · exact h q hq
      · intro h q hq
        exact h q (List.mem_cons_of_mem p hq)

/-- Any id returned by the YouTube extraction loop (over any subset of
the repository's YouTube patterns) is an eleven-character
`[a-zA-Z0-9_-]` token. -/
theorem firstTruthyCap_yt_sound {ps : List RExp} {url id : String}
    (hps : ∀ p ∈ ps, p ∈ ytUtilsPatterns ∨ p = ytWatchMobile)
    (h : firstTruthyCap ps url = some id) :
    id.length = 11 ∧ id.data.all idChar = true := by
  induction ps with
  | nil => simp [firstTruthyCap] at h
  | cons p rest ih =>
    simp only [firstTruthyCap] at h
    cases hm : regexMatch p url with
    | some caps =>
      rcases capsOK_ytPattern (hps p (List.mem_cons_self p rest))
          (searchAll_sound hm) with ⟨c, hcaps, hlen, hall⟩
      subst hcaps
      have hgc : capGet [c] 0 = some (String.mk c) := by simp [capGet]
      have hse : ¬ (String.mk c = "") := by
        intro he
        have : c = [] := by simpa [String.ext_iff] using he
        rw [this] at hlen
        simp at hlen
      simp only [hm, hgc, if_neg hse, Option.some.injEq] at h
      subst h
      exact ⟨hlen, hall⟩
    | none =>
      simp only [hm] at h
      exact ih (fun q hq => hps q (List.mem_cons_of_mem p hq)) h

/-- Any value delivered by the backend's YouTube phase is a defined id
that is an eleven-character `[a-zA-Z0-9_-]` token. -/
theorem firstMatchCap_yt_sound {ps : List RExp} {url : String}
    {v : Option String}
    (hps : ∀ p ∈ ps, p ∈ ytUtilsPatterns ∨ p = ytWatchMobile)
    (h : firstMatchCap ps 0 url = some v) :
    ∃ id, v = some id ∧ id.length = 11 ∧ id.data.all idChar = true := by
  rcases firstMatchCap_some_sound h with ⟨p, hmem, caps, hm, hv⟩
  rcases capsOK_ytPattern (hps p hmem) (searchAll_sound hm)
      with ⟨c, hcaps, hlen, hall⟩
  subst hcaps
  refine ⟨String.mk c, by simpa [capGet] using hv, ?_, ?_⟩
  · simpa [String.length] using hlen
  · simpa using hall
/-! ## Download orchestrator error boundary -/

/-- Outcome of one awaited JavaScript step: either a thrown `Error`
carrying its message, or a returned value. -/
inductive JsOutcome (α : Type) where
  | threw : String → JsOutcome α
  | returned : α → JsOutcome α

/-- The `DownloadResponse` interface shared by the service files. -/
structure DownloadResponse where
  success : Bool
  message : String
  downloadUrl : Option String
  videoInfo : Option Backend.VideoInfo
deriving Repr

/-- The `DownloadRequest` interface. -/
structure DownloadRequest where
  url : String
  format : String
  quality : String
deriving Repr

namespace FrontendService

/-- The part of a `fetch` `Response` read by `downloadVideo`. -/
structure FetchResponse where
  ok : Bool
  status : Nat

/-- The JSON body of the backend reply, as read by `downloadVideo`. -/
structure BackendData where
  success : Bool
  error : Option String
  filePath : Option String
  filename : Option String
  videoInfo : Option Backend.VideoInfo

/-- The environment of one `downloadVideo` run: the outcome of the
`fetch` call, of `response.json()`, and of `downloadFromBackend`. -/
structure DownloadEnv where
  fetchRes : JsOutcome FetchResponse
  jsonRes : JsOutcome BackendData
  saveRes : JsOutcome Unit

/-- The `try` body of `DownloadService.downloadVideo`
(`src/src/services/downloadService.ts` lines 71-118): any `throw`
surfaces as `.error` with the thrown `Error`'s message. -/
def downloadVideoBody (env : DownloadEnv) :
    Except String DownloadResponse :=
  match env.fetchRes with
  | .threw m => .error m
  | .returned resp =>
    if !resp.ok then .error ("Backend API error: " ++ toString resp.status)
    else
      match env.jsonRes with
      | .threw m => .error m
      | .returned data =>
        if !data.success then .error (jsOrStr data.error "Download failed")
        else
          match data.filePath, env.saveRes with
          | some _, .threw m => .error m
          | _, _ =>
            .ok { success := true
                  message := "Download completed successfully"
                  downloadUrl := data.filePath
                  videoInfo := data.videoInfo }

/-- `DownloadService.downloadVideo` (lines 71-126): the surrounding
`catch` turns every thrown error into a structured
`{success: false, message}` result. -/
def downloadVideo (env : DownloadEnv) : DownloadResponse :=
  match downloadVideoBody env with
  | .ok r => r
  | .error m =>
    { success := false, message := m
      downloadUrl := none, videoInfo := none }

/-- The runs on which no step of `downloadVideo` fails: the fetch
returns with `ok`, the JSON parses with `success`, and (when a file
path is present) the save step returns. -/
def envOk (env : DownloadEnv) : Bool :=
  match env.fetchRes with
  | .threw _ => false
  | .returned resp =>
    resp.ok &&
      match env.jsonRes with
      | .threw _ => false
      | .returned data =>
        data.success &&
          match data.filePath, env.saveRes with
          | some _, .threw _ => false
          | _, _ => true

end FrontendService

namespace AppService

/-- The demo video URL used when no direct download URL was found. -/
def demoVideoUrl : String :=
  "https://sample-videos.com/zip/10/mp4/mp4-SampleVideo_1280x720_1mb.mp4"

/-- The demo URLs used by the Instagram path. -/
def demoIgVideoUrl : String :=
  "https://sample-videos.com/zip/10/mp4/mp4-SampleVideo_640x360_1mb.mp4"

def demoIgAudioUrl : String :=
  "https://sample-videos.com/zip/10/mp3/mp3-SampleAudio_0.4mb.mp3"

/-- The environment of one fallback run: the outcome of
`getWorkingDownloadUrl` (whose internal per-approach errors are caught
and turned into `null`, but which is modelled as possibly throwing for
generality). -/
structure FallbackEnv where
  getUrl : JsOutcome (Option String)

/-- `DownloadService.downloadFromYouTube`
(`ytube-saver-app/src/services/downloadService.ts` lines 125-167):
a missing video id throws out of the function; everything inside the
inner `try` is converted by the inner `catch` to a structured
failure. -/
def downloadFromYouTube (req : DownloadRequest) (env : FallbackEnv) :
    Except String DownloadResponse :=
  match extractYouTubeId req.url with
  | none => .error "Invalid YouTube URL"
  | some _ =>
    match env.getUrl with
    | .threw m =>
      .ok { success := false
            message := "Download failed: " ++ m ++
              ". Please try: 1) Check if URL is correct, 2) Try a different quality, 3) Use desktop apps like yt-dlp for guaranteed downloads."
            downloadUrl := none, videoInfo := none }
    | .returned (some u) =>
      .ok { success := true
            message := "Download started! Check your Downloads folder or the location you selected."
            downloadUrl := some u, videoInfo := none }
    | .returned none =>
      .ok { success := true
            message := "Demo download started! (In production, this would be the actual video). Check your Downloads folder or chosen location."
            downloadUrl := some demoVideoUrl, videoInfo := none }

/-- `DownloadService.downloadFromInstagram` (lines 169-199): a missing
post id throws; otherwise the demo download is triggered and reported
as success. -/
def downloadFromInstagram (req : DownloadRequest) :
    Except String DownloadResponse :=
  match extractInstagramId req.url with
  | none => .error "Invalid Instagram URL"
  | some _ =>
    .ok { success := true
          message := "Demo download started! (In production, this would be the actual Instagram content). Check your Downloads folder or chosen location."
          downloadUrl := some (if req.format = "video" then demoIgVideoUrl
            else demoIgAudioUrl)
          videoInfo := none }

/-- `DownloadService.fallbackDownload` (lines 105-123): dispatch on the
detected platform, with the final `catch` converting every escaped
error into a structured failure with remediation text. -/
def fallbackDownload (req : DownloadRequest) (env : FallbackEnv) :
    DownloadResponse :=
  let body : Except String DownloadResponse :=
    match detectPlatform req.url with
    | .youtube => downloadFromYouTube req env
    | .instagram => downloadFromInstagram req
    | .unknown => .error "Unsupported platform"
  match body with
  | .ok r => r
  | .error m =>
    { success := false
      message := "Direct download not available. Please try: 1) Check if URL is correct, 2) Try a different quality, 3) Use desktop apps like yt-dlp. Error: " ++ m
      downloadUrl := none, videoInfo := none }

end AppService
/-! ## Claim theorems -/

/-- C1: the spec (and `SUPPORTED_URLS.md`) assert that URL validation
accepts and id extraction handles all five YouTube shapes, `/embed/`
and `/v/` included. Evaluating the cited code at `/embed/` and `/v/`
URLs: the backend's `isValidUrl` rejects them and its `extractVideoId`
returns null, as does the frontend service's `isValidUrl`, while
`YouTubeUtils.extractVideoId` does extract the 11-character token —
the backend contradicts the repository's own documentation. The first
three shapes behave as claimed. -/
theorem c1_embed_v_divergence :
    Backend.isValidUrl "https://www.youtube.com/embed/dQw4w9WgXcQ" = false ∧
    Backend.extractVideoId "https://www.youtube.com/embed/dQw4w9WgXcQ" = none ∧
    Backend.isValidUrl "https://www.youtube.com/v/dQw4w9WgXcQ" = false ∧
    Backend.extractVideoId "https://www.youtube.com/v/dQw4w9WgXcQ" = none ∧
    FrontendService.isValidUrl "https://www.youtube.com/embed/dQw4w9WgXcQ" = false ∧
    FrontendService.isValidUrl "https://www.youtube.com/v/dQw4w9WgXcQ" = false ∧
    YouTubeUtils.extractVideoId "https://www.youtube.com/embed/dQw4w9WgXcQ"
      = some "dQw4w9WgXcQ" ∧
    YouTubeUtils.extractVideoId "https://www.youtube.com/v/dQw4w9WgXcQ"
      = some "dQw4w9WgXcQ" ∧
    Backend.isValidUrl "https://www.youtube.com/watch?v=dQw4w9WgXcQ" = true ∧
    Backend.extractVideoId "https://www.youtube.com/watch?v=dQw4w9WgXcQ"
      = some "dQw4w9WgXcQ" ∧
    Backend.isValidUrl "https://www.youtube.com/shorts/dQw4w9WgXcQ" = true ∧
    Backend.extractVideoId "https://www.youtube.com/shorts/dQw4w9WgXcQ"
      = some "dQw4w9WgXcQ" ∧
    Backend.isValidUrl "https://youtu.be/dQw4w9WgXcQ" = true ∧
    Backend.extractVideoId "https://youtu.be/dQw4w9WgXcQ"
      = some "dQw4w9WgXcQ" ∧
    Backend.isValidUrl "youtube.com/watch?v=dQw4w9WgXcQ" = true ∧
    Backend.extractVideoId "youtube.com/watch?v=dQw4w9WgXcQ"
      = some "dQw4w9WgXcQ" := by
  decide

/-- C4: the spec (and `SUPPORTED_URLS.md`) assert that `/stories/`
URLs are validated and their story token extracted. Evaluating the
cited code at a stories URL: the app's `isInstagramUrl` accepts it,
but `extractInstagramId` (which has no stories pattern) returns null,
and the backend's `isValidUrl` rejects it outright; the `/p/`,
`/reel/` and `/tv/` shapes behave as claimed. -/
theorem c4_stories_divergence :
    AppService.isInstagramUrl
      "https://www.instagram.com/stories/john_doe/123456789/" = true ∧
    AppService.extractInstagramId
      "https://www.instagram.com/stories/john_doe/123456789/" = none ∧
    Backend.isValidUrl
      "https://www.instagram.com/stories/john_doe/123456789/" = false ∧
    Backend.extractVideoId
      "https://www.instagram.com/stories/john_doe/123456789/" = none ∧
    AppService.isInstagramUrl "https://www.instagram.com/p/ABC123/" = true ∧
    AppService.extractInstagramId "https://www.instagram.com/p/ABC123/"
      = some "ABC123" ∧
    AppService.isInstagramUrl "https://www.instagram.com/reel/XYZ789/" = true ∧
    AppService.extractInstagramId "https://www.instagram.com/reel/XYZ789/"
      = some "XYZ789" ∧
    AppService.isInstagramUrl "https://www.instagram.com/tv/TV12345/" = true ∧
    AppService.extractInstagramId "https://www.instagram.com/tv/TV12345/"
      = some "TV12345" ∧
    Backend.extractVideoId "https://www.instagram.com/p/ABC123/"
      = some "ABC123" := by
  decide

/-- C7: for the shorts URL with a trailing `?feature=share` query
parameter, both the backend's `extractVideoId` and
`YouTubeUtils.extractVideoId` return exactly the 11-character id
`Zdscg2Q2IQQ`. -/
theorem c7_shorts_query_param :
    Backend.extractVideoId
      "https://www.youtube.com/shorts/Zdscg2Q2IQQ?feature=share"
      = some "Zdscg2Q2IQQ" ∧
    YouTubeUtils.extractVideoId
      "https://www.youtube.com/shorts/Zdscg2Q2IQQ?feature=share"
      = some "Zdscg2Q2IQQ" := by
  decide
/-- C2: the format-selection policy of `POST /api/download`: for
non-audio (video) requests the selector follows the quality table with
unconstrained `best` for every unlisted label; for audio requests the
selector is the audio-first chain and the command line always carries
`--audio-format mp3 --audio-quality 0` (best quality). -/
theorem c2_format_selector_policy :
    Backend.formatSelector "video" "2160p (4K)" = "best[height<=2160]" ∧
    Backend.formatSelector "video" "1440p" = "best[height<=1440]" ∧
    Backend.formatSelector "video" "1080p" = "best[height<=1080]" ∧
    Backend.formatSelector "video" "720p" = "best[height<=720]" ∧
    Backend.formatSelector "video" "480p" = "best[height<=480]" ∧
    Backend.formatSelector "video" "360p" = "best[height<=360]" ∧
    (∀ q : String, q ≠ "2160p (4K)" → q ≠ "1440p" → q ≠ "1080p" →
      q ≠ "720p" → q ≠ "480p" → q ≠ "360p" →
      Backend.formatSelector "video" q = "best") ∧
    (∀ q : String,
      Backend.formatSelector "audio" q = "bestaudio[ext=m4a]/bestaudio/best") ∧
    (∀ sel out url : String,
      "--extract-audio --audio-format mp3 --audio-quality 0".data <:+:
        Backend.audioCmdData sel out url) := by
  refine ⟨by decide, by decide, by decide, by decide, by decide, by decide,
    ?_, ?_, ?_⟩
  · intro q h1 h2 h3 h4 h5 h6
    simp [Backend.formatSelector, h1, h2, h3, h4, h5, h6]
  · intro q
    simp [Backend.formatSelector]
  · intro sel out url
    have h1 : ("--extract-audio --audio-format mp3 --audio-quality 0".data :
        List Char) <:+:
        ("\" --extract-audio --audio-format mp3 --audio-quality 0 -o \"".data :
          List Char) := by decide
    have h2 := h1.trans (List.infix_append
      ("C:/Users/sudip/AppData/Local/Microsoft/WindowsApps/python3.12.exe -m yt_dlp -f \"".data
        ++ sel.data)
      ("\" --extract-audio --audio-format mp3 --audio-quality 0 -o \"".data)
      (out.data ++ ("\" \"".data ++ (url.data ++ "\"".data))))
    simpa [Backend.audioCmdData, List.append_assoc] using h2

/-- Witness for C2 at concrete inputs. -/
theorem c2_format_selector_policy_witness :
    Backend.formatSelector "video" "ultra" = "best" ∧
    Backend.formatSelector "audio" "720p"
      = "bestaudio[ext=m4a]/bestaudio/best" ∧
    "--extract-audio --audio-format mp3 --audio-quality 0".data <:+:
      Backend.audioCmdData "bestaudio[ext=m4a]/bestaudio/best"
        "downloads/x.%(ext)s" "https://youtu.be/dQw4w9WgXcQ" :=
  ⟨c2_format_selector_policy.2.2.2.2.2.2.1 "ultra" (by decide) (by decide)
      (by decide) (by decide) (by decide) (by decide),
    c2_format_selector_policy.2.2.2.2.2.2.2.1 "720p",
    c2_format_selector_policy.2.2.2.2.2.2.2.2
      "bestaudio[ext=m4a]/bestaudio/best" "downloads/x.%(ext)s"
      "https://youtu.be/dQw4w9WgXcQ"⟩

/-- C5: the cleanup sweep deletes exactly the entries whose age
exceeds the one-hour threshold (3600000 ms), keeps every entry at or
under it, and its reported count is the number of deleted entries; in
particular on a directory of one over-threshold and one at-or-under
threshold file it deletes exactly the older one and counts 1. -/
theorem c5_cleanup_threshold :
    (∀ (now : Int) (files : List Backend.DirEntry),
      (Backend.cleanupRun now files).1
          = files.filter (fun f => decide (now - f.mtime ≤ 3600000)) ∧
      (Backend.cleanupRun now files).2
          = (files.filter (fun f => decide (now - f.mtime > 3600000))).length) ∧
    (∀ (now : Int) (old fresh : Backend.DirEntry),
      now - old.mtime > 3600000 → now - fresh.mtime ≤ 3600000 →
      Backend.cleanupRun now [old, fresh] = ([fresh], 1)) := by
  constructor
  · intro now files
    induction files with
    | nil => exact ⟨rfl, rfl⟩
    | cons f fs ih =>
      simp only [Backend.cleanupRun, List.filter_cons]
      by_cases h : now - f.mtime > 3600000
      · rw [if_pos h]
        refine ⟨?_, ?_⟩
        · simp [not_le.mpr h, ih.1]
        · simp [h, ih.2]
      · rw [if_neg h]
        rw [not_lt] at h
        refine ⟨?_, ?_⟩
        · simp [h, ih.1]
        · simp [not_lt.mpr h, ih.2]
  · intro now old fresh h1 h2
    simp [Backend.cleanupRun, if_pos h1, if_neg (not_lt.mpr h2)]

/-- Witness for C5 at a concrete two-file directory. -/
theorem c5_cleanup_threshold_witness :
    Backend.cleanupRun 7200000
        [⟨"old.mp4", 0⟩, ⟨"new.mp4", 7000000⟩]
      = ([⟨"new.mp4", 7000000⟩], 1) :=
  c5_cleanup_threshold.2 7200000 ⟨"old.mp4", 0⟩ ⟨"new.mp4", 7000000⟩
    (by decide) (by decide)

/-- C9: the `platform` field of the `/api/video-info` response is
`youtube` exactly when the request URL contains the substring
`youtube` and `instagram` otherwise; a valid `youtu.be` short-link
URL lacks that substring, so its reported platform is `instagram`. -/
theorem c9_platform_substring :
    (∀ (url : String) (d : Backend.YtDlpData),
      (Backend.mapVideoInfo url d).platform = Backend.platformOf url) ∧
    (∀ url : String, Backend.platformOf url
        = (if jsIncludes url "youtube" then "youtube" else "instagram")) ∧
    (∀ url : String, Backend.isValidUrl url = true →
      jsIncludes url "youtube" = false →
      Backend.platformOf url = "instagram") ∧
    (Backend.isValidUrl "https://youtu.be/dQw4w9WgXcQ" = true ∧
      jsIncludes "https://youtu.be/dQw4w9WgXcQ" "youtube" = false ∧
      Backend.platformOf "https://youtu.be/dQw4w9WgXcQ" = "instagram") := by
  refine ⟨fun _ _ => rfl, fun _ => rfl, ?_, by decide⟩
  intro url _ h
  simp [Backend.platformOf, h]

/-- Witness for C9 at the short-link URL. -/
theorem c9_platform_substring_witness :
    Backend.platformOf "https://youtu.be/dQw4w9WgXcQ" = "instagram" :=
  c9_platform_substring.2.2.1 "https://youtu.be/dQw4w9WgXcQ" (by decide)
    (by decide)
/-- C8 counterexample: a metadata object with `uploader` missing but
`channel` present maps `uploader` to the channel name, not to the
claimed default `"Unknown"` (the code is `uploader || channel ||
'Unknown'`). -/
theorem c8_uploader_channel_counterexample :
    (Backend.mapVideoInfo "https://www.youtube.com/watch?v=dQw4w9WgXcQ"
      { id := some "dQw4w9WgXcQ", title := some "A Title",
        thumbnail := some "t", duration_string := some "3:45",
        uploader := none, channel := some "The Channel",
        formats := none }).uploader = "The Channel" ∧
    ¬ (("The Channel" : String) = "Unknown") := by
  exact ⟨rfl, by decide⟩

/-- C8 (amended): the `/api/video-info` mapping defaults `title` to
`"Unknown Title"` and `duration` to `"00:00"` when the field is
missing or empty, passes non-empty present fields through unchanged,
and for `uploader` falls back first to `channel` and only then to
`"Unknown"` (JavaScript `||` also treats present-but-empty strings as
missing). -/
theorem c8_videoinfo_defaults :
    ∀ (url : String) (d : Backend.YtDlpData),
      ((d.title = none ∨ d.title = some "") →
        (Backend.mapVideoInfo url d).title = "Unknown Title") ∧
      (∀ t, d.title = some t → t ≠ "" →
        (Backend.mapVideoInfo url d).title = t) ∧
      ((d.duration_string = none ∨ d.duration_string = some "") →
        (Backend.mapVideoInfo url d).duration = "00:00") ∧
      (∀ t, d.duration_string = some t → t ≠ "" →
        (Backend.mapVideoInfo url d).duration = t) ∧
      (∀ t, d.uploader = some t → t ≠ "" →
        (Backend.mapVideoInfo url d).uploader = t) ∧
      ((d.uploader = none ∨ d.uploader = some "") →
        (∀ t, d.channel = some t → t ≠ "" →
          (Backend.mapVideoInfo url d).uploader = t) ∧
        ((d.channel = none ∨ d.channel = some "") →
          (Backend.mapVideoInfo url d).uploader = "Unknown")) := by
  intro url d
  refine ⟨?_, ?_, ?_, ?_, ?_, ?_⟩
  · intro h
    rcases h with h | h <;> simp [Backend.mapVideoInfo, jsOrStr, h]
  · intro t ht hne
    simp [Backend.mapVideoInfo, jsOrStr, ht, hne]
  · intro h
    rcases h with h | h <;> simp [Backend.mapVideoInfo, jsOrStr, h]
  · intro t ht hne
    simp [Backend.mapVideoInfo, jsOrStr, ht, hne]
  · intro t ht hne
    simp [Backend.mapVideoInfo, jsOrStr, ht, hne]
  · intro hu
    constructor
    · intro t ht hne
      rcases hu with hu | hu <;>
        simp [Backend.mapVideoInfo, jsOrStr, hu, ht, hne]
    · intro hc
      rcases hu with hu | hu <;> rcases hc with hc | hc <;>
        simp [Backend.mapVideoInfo, jsOrStr, hu, hc]

/-- Witness for C8 (amended) at an all-missing metadata object. -/
theorem c8_videoinfo_defaults_witness :
    (Backend.mapVideoInfo "u"
      { id := none, title := none, thumbnail := none,
        duration_string := none, uploader := none, channel := none,
        formats := none }).title = "Unknown Title" ∧
    (Backend.mapVideoInfo "u"
      { id := none, title := none, thumbnail := none,
        duration_string := none, uploader := none, channel := none,
        formats := none }).uploader = "Unknown" :=
  ⟨(c8_videoinfo_defaults "u" _).1 (Or.inl rfl),
    ((c8_videoinfo_defaults "u" _).2.2.2.2.2 (Or.inl rfl)).2 (Or.inl rfl)⟩

/-- C10: every id ever returned by the YouTube extraction loops (the
`YouTubeUtils`/app-service seven-pattern loop and the backend's
YouTube phase) is exactly eleven characters drawn from
`[a-zA-Z0-9_-]`. -/
theorem c10_extracted_id_invariant :
    (∀ (s id : String), YouTubeUtils.extractVideoId s = some id →
      id.length = 11 ∧ id.data.all idChar = true) ∧
    (∀ (s id : String), AppService.extractYouTubeId s = some id →
      id.length = 11 ∧ id.data.all idChar = true) ∧
    (∀ (s : String) (v : Option String),
      firstMatchCap Backend.ytPatterns 0 s = some v →
      ∃ id, v = some id ∧ id.length = 11 ∧ id.data.all idChar = true) := by
  refine ⟨?_, ?_, ?_⟩
  · intro s id h
    exact firstTruthyCap_yt_sound (fun p hp => Or.inl hp) h
  · intro s id h
    exact firstTruthyCap_yt_sound (fun p hp => Or.inl hp) h
  · intro s v h
    refine firstMatchCap_yt_sound ?_ h
    intro p hp
    left
    simp only [Backend.ytPatterns, List.mem_cons, List.not_mem_nil,
      or_false] at hp
    rcases hp with hp | hp | hp <;> subst hp <;> simp [ytUtilsPatterns]

/-- Witness for C10 at the shorts URL. -/
theorem c10_extracted_id_invariant_witness :
    ("Zdscg2Q2IQQ" : String).length = 11 ∧
    "Zdscg2Q2IQQ".data.all idChar = true :=
  c10_extracted_id_invariant.1
    "https://www.youtube.com/shorts/Zdscg2Q2IQQ?feature=share"
    "Zdscg2Q2IQQ" (by decide)
theorem regexTest_eq_isSome (p : RExp) (url : String) :
    regexTest p url = (regexMatch p url).isSome := rfl

theorem firstTruthyCap_some_matched {ps : List RExp} {url id : String}
    (h : firstTruthyCap ps url = some id) :
    ∃ p ∈ ps, ∃ caps, regexMatch p url = some caps := by
  induction ps with
  | nil => simp [firstTruthyCap] at h
  | cons p rest ih =>
    simp only [firstTruthyCap] at h
    cases hm : regexMatch p url with
    | some caps => exact ⟨p, List.mem_cons_self p rest, caps, hm⟩
    | none =>
      simp only [hm] at h
      rcases ih h with ⟨q, hq, caps, hmq⟩
      exact ⟨q, List.mem_cons_of_mem p hq, caps, hmq⟩

/-- C3 counterexample: a stories URL is accepted by the app's
Instagram validator but its extractor (which lacks the stories
pattern) returns no identifier, so validation and extraction do not
agree on all inputs. -/
theorem c3_stories_counterexample :
    AppService.isInstagramUrl
      "https://instagram.com/stories/some.user/31415926535/" = true ∧
    AppService.extractInstagramId
      "https://instagram.com/stories/some.user/31415926535/" = none := by
  decide

/-- C3 (amended): for the backend pair `isValidUrl`/`extractVideoId`
(which share one pattern set) validation succeeds exactly when
extraction returns an identifier, and for the app's Instagram pair
extraction success still implies validation; the converse fails for
the app pair on stories URLs. -/
theorem c3_validation_extraction_agree :
    (∀ url : String, Backend.isValidUrl url = true ↔
      (Backend.extractVideoId url).isSome = true) ∧
    (∀ url : String, (AppService.extractInstagramId url).isSome = true →
      AppService.isInstagramUrl url = true) := by
  have hytsub : ∀ p ∈ Backend.ytPatterns,
      p ∈ ytUtilsPatterns ∨ p = ytWatchMobile := by
    intro p hp
    left
    simp only [Backend.ytPatterns, List.mem_cons, List.not_mem_nil,
      or_false] at hp
    rcases hp with hp | hp | hp <;> subst hp <;> simp [ytUtilsPatterns]
  constructor
  · intro url
    constructor
    · intro hvalid
      simp only [Backend.isValidUrl, Backend.patterns,
        List.any_eq_true] at hvalid
      rcases hvalid with ⟨p, hp, htest⟩
      cases hfm : firstMatchCap Backend.ytPatterns 0 url with
      | some v =>
        rcases firstMatchCap_yt_sound hytsub hfm with ⟨id2, hv, _, _⟩
        subst hv
        simp [Backend.extractVideoId, hfm]
      | none =>
        have hall := firstMatchCap_eq_none_iff.mp hfm
        simp only [List.mem_cons, List.not_mem_nil, or_false] at hp
        have hig : ∃ caps, regexMatch igCombined url = some caps := by
          rcases hp with hp | hp | hp | hp
          · subst hp
            have hn := hall ytWatch (by simp [Backend.ytPatterns])
            rw [regexTest_eq_isSome, hn] at htest
            exact absurd htest (by simp)
          · subst hp
            have hn := hall ytShorts (by simp [Backend.ytPatterns])
            rw [regexTest_eq_isSome, hn] at htest
            exact absurd htest (by simp)
          · subst hp
            have hn := hall ytShortLink (by simp [Backend.ytPatterns])
            rw [regexTest_eq_isSome, hn] at htest
            exact absurd htest (by simp)
          · subst hp
            rw [regexTest_eq_isSome, Option.isSome_iff_exists] at htest
            exact htest
        rcases hig with ⟨caps, hm⟩
        rcases capsOK_igCombined (searchAll_sound hm)
            with ⟨w, c, hcaps, _, _, _⟩
        subst hcaps
        simp [Backend.extractVideoId, hfm, hm, capGet]
    · intro hsome
      rw [Option.isSome_iff_exists] at hsome
      rcases hsome with ⟨id, hid⟩
      simp only [Backend.extractVideoId] at hid
      cases hfm : firstMatchCap Backend.ytPatterns 0 url with
      | some v =>
        rcases firstMatchCap_some_sound hfm with ⟨p, hp, caps, hm, _⟩
        simp only [Backend.isValidUrl, Backend.patterns, List.any_eq_true]
        refine ⟨p, ?_, ?_⟩
        · simp only [Backend.ytPatterns, List.mem_cons, List.not_mem_nil,
            or_false] at hp
          rcases hp with hp | hp | hp <;> subst hp <;> simp
        · rw [regexTest_eq_isSome, hm]; rfl
      | none =>
        rw [hfm] at hid
        cases hm : regexMatch igCombined url with
        | some caps =>
          simp only [Backend.isValidUrl, Backend.patterns, List.any_eq_true]
          exact ⟨igCombined, by simp,
            by rw [regexTest_eq_isSome, hm]; rfl⟩
        | none =>
          rw [hm] at hid
          exact absurd hid (by simp)
  · intro url h
    rw [Option.isSome_iff_exists] at h
    rcases h with ⟨id, hid⟩
    rcases firstTruthyCap_some_matched hid with ⟨p, hp, caps, hm⟩
    simp only [AppService.isInstagramUrl, AppService.igValidPatterns,
      List.any_eq_true]
    refine ⟨p, ?_, ?_⟩
    · simp only [List.mem_cons, List.not_mem_nil, or_false] at hp
      rcases hp with hp | hp | hp <;> subst hp <;> simp
    · rw [regexTest_eq_isSome, hm]; rfl

/-- Witness for C3 (amended) at concrete URLs. -/
theorem c3_validation_extraction_agree_witness :
    (Backend.isValidUrl "https://www.youtube.com/watch?v=dQw4w9WgXcQ" = true ↔
      (Backend.extractVideoId
        "https://www.youtube.com/watch?v=dQw4w9WgXcQ").isSome = true) ∧
    AppService.isInstagramUrl "https://www.instagram.com/p/ABC123/" = true :=
  ⟨c3_validation_extraction_agree.1
      "https://www.youtube.com/watch?v=dQw4w9WgXcQ",
    c3_validation_extraction_agree.2 "https://www.instagram.com/p/ABC123/"
      (by decide)⟩
set_option maxRecDepth 8192 in
/-- C6: the download operation never lets an error escape: the
frontend `downloadVideo` returns a structured result on every run,
with `success = true` exactly on the fully successful runs (so every
failing run yields a structured `success = false` result); the app's
`fallbackDownload` likewise returns a structured result on every run,
every failure result carries a non-empty message, and an unsupported
platform always yields a failure result. -/
theorem c6_error_boundary :
    (∀ env : FrontendService.DownloadEnv,
      (FrontendService.downloadVideo env).success
        = FrontendService.envOk env) ∧
    (∀ (req : DownloadRequest) (env : AppService.FallbackEnv),
      (AppService.fallbackDownload req env).success = false →
        0 < (AppService.fallbackDownload req env).message.length) ∧
    (∀ (req : DownloadRequest) (env : AppService.FallbackEnv),
      AppService.detectPlatform req.url = AppService.Platform.unknown →
        (AppService.fallbackDownload req env).success = false) := by
  refine ⟨?_, ?_, ?_⟩
  · intro env
    rcases env with ⟨fr, jr, sr⟩
    cases fr with
    | threw m => rfl
    | returned resp =>
      cases hok : resp.ok with
      | false =>
        simp [FrontendService.downloadVideo,
          FrontendService.downloadVideoBody, FrontendService.envOk, hok]
      | true =>
        cases jr with
        | threw m =>
          simp [FrontendService.downloadVideo,
            FrontendService.downloadVideoBody, FrontendService.envOk, hok]
        | returned data =>
          cases hds : data.success with
          | false =>
            simp [FrontendService.downloadVideo,
              FrontendService.downloadVideoBody, FrontendService.envOk,
              hok, hds]
          | true =>
            cases hfp : data.filePath with
            | none =>
              cases sr <;>
                simp [FrontendService.downloadVideo,
                  FrontendService.downloadVideoBody, FrontendService.envOk,
                  hok, hds, hfp]
            | some fp =>
              cases sr <;>
                simp [FrontendService.downloadVideo,
                  FrontendService.downloadVideoBody, FrontendService.envOk,
                  hok, hds, hfp]
  · intro req env h
    cases hdp : AppService.detectPlatform req.url with
    | youtube =>
      cases hex : AppService.extractYouTubeId req.url with
      | none =>
        simp [AppService.fallbackDownload, AppService.downloadFromYouTube,
          hdp, hex]
        decide
      | some vid =>
        rcases env with ⟨gu⟩
        cases gu with
        | threw m =>
          have hpos : 0 < ("Download failed: " : String).length := by decide
          simp [AppService.fallbackDownload, AppService.downloadFromYouTube,
            hdp, hex, String.length_append]
          omega
        | returned o =>
          cases o <;>
            simp [AppService.fallbackDownload,
              AppService.downloadFromYouTube, hdp, hex] at h
    | instagram =>
      cases hex : AppService.extractInstagramId req.url with
      | none =>
        simp [AppService.fallbackDownload, AppService.downloadFromInstagram,
          hdp, hex]
        decide
      | some pid =>
        simp [AppService.fallbackDownload, AppService.downloadFromInstagram,
          hdp, hex] at h
    | unknown =>
      simp [AppService.fallbackDownload, hdp]
      decide
  · intro req env hdp
    simp [AppService.fallbackDownload, hdp]

set_option maxRecDepth 8192 in
/-- Witness for C6 at a concrete failing run (unreachable platform)
and a concrete frontend environment. -/
theorem c6_error_boundary_witness :
    (FrontendService.downloadVideo
        ⟨JsOutcome.threw "NetworkError when attempting to fetch resource",
          JsOutcome.returned ⟨true, none, none, none, none⟩,
          JsOutcome.returned ()⟩).success
      = FrontendService.envOk
        ⟨JsOutcome.threw "NetworkError when attempting to fetch resource",
          JsOutcome.returned ⟨true, none, none, none, none⟩,
          JsOutcome.returned ()⟩ ∧
    (AppService.fallbackDownload ⟨"https://example.com/video", "video",
        "720p"⟩ ⟨JsOutcome.returned none⟩).success = false ∧
    0 < (AppService.fallbackDownload ⟨"https://example.com/video", "video",
        "720p"⟩ ⟨JsOutcome.returned none⟩).message.length :=
  ⟨c6_error_boundary.1 _,
    c6_error_boundary.2.2 ⟨"https://example.com/video", "video", "720p"⟩
      ⟨JsOutcome.returned none⟩ (by decide),
    c6_error_boundary.2.1 ⟨"https://example.com/video", "video", "720p"⟩
      ⟨JsOutcome.returned none⟩
      (c6_error_boundary.2.2 ⟨"https://example.com/video", "video", "720p"⟩
        ⟨JsOutcome.returned none⟩ (by decide))⟩
